import Mathlib

/-!
Verification development for the `envoi-s3` command-line dispatcher
(`src/envoi-s3.py`).  The program is a shim: it parses two flags, picks one
of three S3 client binaries, augments the argument list and the environment
map per client, optionally overwrites credentials from an STS role
assumption, spawns the chosen binary as a blocking subprocess and forwards
an exit code.

The shallow embedding below models the process environment as an
association list of string pairs (Python's `dict` of environment
variables), external effects (`shutil.which`, `subprocess.run`, the boto3
STS call) as function parameters, and the `optparse` invocation as a small
scanner over the argument list restricted to the two registered options.
-/

set_option autoImplicit false

namespace EnvoiS3

/-- The subprocess environment map (Python `dict` of strings, insertion
ordered, duplicate-free in all uses here). -/
abbrev Env : Type := List (String × String)

/-- Python `dict` lookup / `os.getenv`: the value bound to the first
occurrence of the key. -/
def envLookup : Env → String → Option String
  | [], _ => none
  | (k2, v) :: rest, k => if k2 = k then some v else envLookup rest k

/-- Python `dict.setdefault`: insert the binding only when the key is
absent. -/
def envSetdefault (env : Env) (k v : String) : Env :=
  match envLookup env k with
  | some _ => env
  | none => env ++ [(k, v)]

/-- Python `dict` assignment `env[k] = v`: overwrite the first binding of
the key, or append a new one. -/
def envSet : Env → String → String → Env
  | [], k, v => [(k, v)]
  | (k2, v2) :: rest, k, v =>
    if k2 = k then (k, v) :: rest else (k2, v2) :: envSet rest k v

/-- Python truthiness of an optional string (`None` and `''` are falsy). -/
def pyTruthy : Option String → Bool
  | none => false
  | some s => !(s == (""))

/-- Python `a or b` on optional strings. -/
def pyOr (a b : Option String) : Option String :=
  if pyTruthy a then a else b

/-- Model of `os.getenv('AWS_ENDPOINT_URL_S3') or os.getenv('S3_ENDPOINT_URL')`,
as read by the `aws` and `s4cmd` augment functions. -/
def endpoint_url_setting (environ : Env) : Option String :=
  pyOr (envLookup environ ("AWS_ENDPOINT_URL_S3"))
    (envLookup environ ("S3_ENDPOINT_URL"))

/-- Model of `augment_common(cmd_args, env_vars)`: copy `S3_ACCESS_KEY` /
`S3_SECRET_KEY` from the process environment (`os.getenv`) into the
subprocess environment under the AWS names, without overwriting existing
entries (`setdefault`), skipping falsy values. -/
def augment_common (environ : Env) (cmd_args : List String) (env_vars : Env) :
    List String × Env :=
  let e1 := match envLookup environ ("S3_ACCESS_KEY") with
    | some a => if a = ("") then env_vars
        else envSetdefault env_vars ("AWS_ACCESS_KEY_ID") a
    | none => env_vars
  let e2 := match envLookup environ ("S3_SECRET_KEY") with
    | some s => if s = ("") then e1
        else envSetdefault e1 ("AWS_SECRET_ACCESS_KEY") s
    | none => e1
  (cmd_args, e2)

/-- Model of `augment_aws_arguments`: after `augment_common`, append
`['--endpoint-url', url]` when an endpoint URL is configured and the flag
is not already among the arguments. -/
def augment_aws_arguments (environ : Env) (cmd_args : List String)
    (env_vars : Env) : List String × Env :=
  let p := augment_common environ cmd_args env_vars
  match endpoint_url_setting environ with
  | some u =>
    if ("--endpoint-url") ∈ p.1 then (p.1, p.2)
    else (p.1 ++ [("--endpoint-url"), u], p.2)
  | none => (p.1, p.2)

/-- Model of `augment_s4cmd_arguments`: after `augment_common`, append
`['--endpoint', url]` unconditionally when an endpoint URL is configured,
then append `['--region', region]` when `--region` is not already among
the (extended) arguments and `S3_REGION` is set. -/
def augment_s4cmd_arguments (environ : Env) (cmd_args : List String)
    (env_vars : Env) : List String × Env :=
  let p := augment_common environ cmd_args env_vars
  let a1 := match endpoint_url_setting environ with
    | some u => p.1 ++ [("--endpoint"), u]
    | none => p.1
  let a2 :=
    if ("--region") ∈ a1 then a1
    else match envLookup environ ("S3_REGION") with
      | some r => a1 ++ [("--region"), r]
      | none => a1
  (a2, p.2)

/-- Model of `augment_s5cmd_arguments`: only the common credential augmentation. -/
def augment_s5cmd_arguments (environ : Env) (cmd_args : List String)
    (env_vars : Env) : List String × Env :=
  augment_common environ cmd_args env_vars

/-- The result of `parse_command_line`'s two registered `optparse` options:
`--client` (dest `client_name`, default `'s5cmd'`) and `--role-arn`
(dest `role_arn`, default `None`). -/
structure Opts where
  client_name : String
  role_arn : Option String
deriving DecidableEq

/-- Boolean prefix test on character lists (used to model `optparse`'s
recognition of `--`/`-` shaped tokens). -/
def leadsChars : List Char → List Char → Bool
  | [], _ => true
  | _ :: _, [] => false
  | a :: as, b :: bs => a == b && leadsChars as bs

/-- Whether the string `p` is a prefix of the string `s`. -/
def strLeads (p s : String) : Bool := leadsChars p.data s.data

/-- The value part of a long option written as `--name=value`, given the
length of `--name=`. -/
def optValueAfter (n : Nat) (a : String) : String := String.mk (a.data.drop n)

/-- Scanner modelling the `optparse.OptionParser.parse_args` call with
exactly the two registered long options.  Options and positional
arguments may be interspersed; `--opt value` and `--opt=value` are both
accepted; `--` ends option processing; any other `--x` or `-x` token is
rejected (optparse exits with a usage error); accumulated positionals are
returned in order. -/
def parse_args_scan : List String → Opts → List String →
    Except String (Opts × List String)
  | [], opts, acc => Except.ok (opts, acc.reverse)
  | arg :: rest, opts, acc =>
    if arg = ("--") then Except.ok (opts, acc.reverse ++ rest)
    else if arg = ("--client") then
      match rest with
      | v :: rest2 => parse_args_scan rest2 { opts with client_name := v } acc
      | [] => Except.error ("--client option requires an argument")
    else if strLeads ("--client=") arg then
      parse_args_scan rest { opts with client_name := optValueAfter 9 arg } acc
    else if arg = ("--role-arn") then
      match rest with
      | v :: rest2 => parse_args_scan rest2 { opts with role_arn := some v } acc
      | [] => Except.error ("--role-arn option requires an argument")
    else if strLeads ("--role-arn=") arg then
      parse_args_scan rest { opts with role_arn := some (optValueAfter 11 arg) } acc
    else if strLeads ("--") arg then Except.error ("no such option")
    else if strLeads ("-") arg ∧ arg ≠ ("-") then Except.error ("no such option")
    else parse_args_scan rest opts (arg :: acc)

/-- Model of `parse_command_line(cli_args, env_vars)`: run the option parser with
the documented defaults and pass `env_vars` through unchanged. -/
def parse_command_line (cli_args : List String) (env_vars : Env) :
    Except String (Opts × List String × Env) :=
  match parse_args_scan cli_args { client_name := ("s5cmd"), role_arn := none } [] with
  | Except.ok (opts, args) => Except.ok (opts, args, env_vars)
  | Except.error e => Except.error e

/-- Model of `determine_first_executable_command(commands)`: the first command the
`shutil.which` oracle resolves, else `None`. -/
def determine_first_executable_command (which : String → Option String) :
    List String → Option String
  | [] => none
  | c :: rest =>
    match which c with
    | some _ => some c
    | none => determine_first_executable_command which rest

/-- Model of `determine_client(opts)`:
`opts.client_name or determine_first_executable_command([...])` with
Python string truthiness on `client_name`. -/
def determine_client (which : String → Option String) (opts : Opts) :
    Option String :=
  if opts.client_name = ("") then
    determine_first_executable_command which
      ([("s5cmd"), ("s4cmd"), ("aws")])
  else some opts.client_name

/-- The temporary credentials inside the STS `assume_role` response. -/
structure Credentials where
  accessKeyId : String
  secretAccessKey : String
  sessionToken : String
deriving DecidableEq

/-- Model of `assume_role_using_arn(role_arn, env_vars)` after the boto3 STS call:
the network call is external, so the credentials of its response are a
parameter; the function overwrites the three AWS credential entries of
the subprocess environment with them. -/
def assume_role_using_arn (credentials : Credentials) (env_vars : Env) : Env :=
  let e1 := envSet env_vars ("AWS_ACCESS_KEY_ID") credentials.accessKeyId
  let e2 := envSet e1 ("AWS_SECRET_ACCESS_KEY") credentials.secretAccessKey
  envSet e2 ("AWS_SESSION_TOKEN") credentials.sessionToken

/-- The `role_arn` step of `main`: `if role_arn:` (Python truthiness)
guards the call to `assume_role_using_arn`; `sts` maps a role ARN to the
credentials returned by the STS API for it. -/
def apply_role_assumption (sts : String → Credentials) (opts : Opts)
    (env_vars : Env) : Env :=
  match opts.role_arn with
  | some r => if r = ("") then env_vars
      else assume_role_using_arn (sts r) env_vars
  | none => env_vars

/-- Outcome of one `subprocess.run(cmd, check=True, env=...)` call: the
spawn itself can fail (`FileNotFoundError` when the program is not on
PATH), and `check=True` raises `CalledProcessError` on a nonzero child
exit code. -/
inductive RunError where
  | fileNotFound
  | calledProcessError (code : Nat)
deriving DecidableEq

/-- Model of `subprocess.run(cmd, check=True, env=env_vars)`: `exec` maps a program
name to its exit code when it is on PATH (`none` means not found).  On
success the completed process carries return code 0. -/
def subprocess_run_check (exec : String → Option Nat) (cmd : List String) :
    Except RunError Nat :=
  match cmd with
  | [] => Except.error (RunError.fileNotFound)
  | prog :: _ =>
    match exec prog with
    | none => Except.error (RunError.fileNotFound)
    | some code =>
      if code = 0 then Except.ok 0
      else Except.error (RunError.calledProcessError code)

/-- The command line and subprocess environment each wrapper function
(`s4cmd_wrapper` / `s5cmd_wrapper` / `aws_wrapper`) hands to
`subprocess.run`, following the `elif` chain of `execute_client`; `none`
for any unknown client name (including Python `None`). -/
def client_invocation (environ : Env) (client_name : Option String)
    (cli_args : List String) (env_vars : Env) : Option (List String × Env) :=
  if client_name = some ("s4cmd") then
    let p := augment_s4cmd_arguments environ cli_args env_vars
    some (("s4cmd") :: p.1, p.2)
  else if client_name = some ("s5cmd") then
    let p := augment_s5cmd_arguments environ cli_args env_vars
    some (("s5cmd") :: p.1, p.2)
  else if client_name = some ("aws") then
    let p := augment_aws_arguments environ cli_args env_vars
    some (("aws") :: ("s3") :: p.1, p.2)
  else none

/-- Model of `execute_client(client_name, cli_args, env_vars)`: returns the exit
code (0 from a successful child, 1 for an unknown client name, 1 when the
`try` block catches any exception — missing binary or nonzero child exit)
together with the list of attempted subprocess spawns (command line and
environment). -/
def execute_client (exec : String → Option Nat) (environ : Env)
    (client_name : Option String) (cli_args : List String) (env_vars : Env) :
    Nat × List (List String × Env) :=
  match client_invocation environ client_name cli_args env_vars with
  | none => (1, [])
  | some (cmd, ev) =>
    match subprocess_run_check exec cmd with
    | Except.ok _ => (0, [(cmd, ev)])
    | Except.error _ => (1, [(cmd, ev)])

/-- Model of `main()`: parse the command line against a copy of the process
environment, resolve the client, optionally assume the role, run the
client, and exit with the resulting code (`sys.exit(exit_code)` when
nonzero, normal exit 0 otherwise — so the process exit code is the
returned code either way).  A parse error models optparse's usage-error
exit. -/
def mainRun (which : String → Option String) (exec : String → Option Nat)
    (sts : String → Credentials) (environ : Env) (cli_args : List String) :
    Except String (Nat × List (List String × Env)) :=
  match parse_command_line cli_args environ with
  | Except.error e => Except.error e
  | Except.ok (opts, remaining_args, env_vars) =>
    let client_name := determine_client which opts
    let env_vars2 := apply_role_assumption sts opts env_vars
    Except.ok (execute_client exec environ client_name remaining_args env_vars2)

/-! ### Lemmas about the environment map operations -/

theorem envLookup_append_of_some {env : Env} {k w : String} (l : Env)
    (h : envLookup env k = some w) : envLookup (env ++ l) k = some w := by
  induction env with
  | nil => simp [envLookup] at h
  | cons p rest ih =>
    obtain ⟨k2, v⟩ := p
    simp only [envLookup, List.cons_append] at h ⊢
    by_cases hk : k2 = k
    · simpa [hk] using h
    · rw [if_neg hk] at h ⊢
      exact ih h

theorem envLookup_append_of_none {env : Env} {k : String} (l : Env)
    (h : envLookup env k = none) : envLookup (env ++ l) k = envLookup l k := by
  induction env with
  | nil => simp [envLookup]
  | cons p rest ih =>
    obtain ⟨k2, v⟩ := p
    simp only [envLookup, List.cons_append] at h ⊢
    by_cases hk : k2 = k
    · simp [hk] at h
    · rw [if_neg hk] at h ⊢
      exact ih h

theorem envLookup_envSetdefault_of_some {env : Env} {k w : String}
    (k2 v : String) (h : envLookup env k = some w) :
    envLookup (envSetdefault env k2 v) k = some w := by
  unfold envSetdefault
  cases henv : envLookup env k2 with
  | some _ => exact h
  | none => exact envLookup_append_of_some _ h

theorem envLookup_envSetdefault_self_of_none {env : Env} {k : String}
    (v : String) (h : envLookup env k = none) :
    envLookup (envSetdefault env k v) k = some v := by
  unfold envSetdefault
  rw [h, envLookup_append_of_none _ h]
  simp [envLookup]

theorem envLookup_envSetdefault_of_ne {env : Env} {k k2 : String}
    (v : String) (hne : k2 ≠ k) :
    envLookup (envSetdefault env k2 v) k = envLookup env k := by
  unfold envSetdefault
  cases henv : envLookup env k2 with
  | some _ => rfl
  | none =>
    cases hk : envLookup env k with
    | some w => exact envLookup_append_of_some _ hk
    | none =>
      rw [envLookup_append_of_none _ hk]
      simp [envLookup, hne]

theorem envLookup_envSet_self (env : Env) (k v : String) :
    envLookup (envSet env k v) k = some v := by
  induction env with
  | nil => simp [envSet, envLookup]
  | cons p rest ih =>
    obtain ⟨k2, v2⟩ := p
    by_cases hk : k2 = k
    · simp [envSet, hk, envLookup]
    · simp [envSet, hk, envLookup, ih]

theorem envLookup_envSet_of_ne (env : Env) {k k2 : String} (v : String)
    (hne : k2 ≠ k) : envLookup (envSet env k2 v) k = envLookup env k := by
  induction env with
  | nil => simp [envSet, envLookup, hne]
  | cons p rest ih =>
    obtain ⟨k3, v3⟩ := p
    by_cases hk : k3 = k2
    · subst hk
      simp [envSet, envLookup, hne]
    · have hkk2 : ¬ k = k2 := fun h => hne h.symm
      by_cases hk2 : k3 = k
      · simp [envSet, envLookup, hk, hk2, hkk2]
      · simp [envSet, envLookup, hk, hk2, hkk2, ih]

/-! ### Lemmas about the augmentation functions -/

theorem augment_common_fst (environ : Env) (cmd_args : List String)
    (env_vars : Env) : (augment_common environ cmd_args env_vars).1 = cmd_args := rfl

theorem augment_common_preserves_some (environ : Env) (cmd_args : List String)
    {env_vars : Env} {k w : String} (h : envLookup env_vars k = some w) :
    envLookup (augment_common environ cmd_args env_vars).2 k = some w := by
  unfold augment_common
  cases h1 : envLookup environ ("S3_ACCESS_KEY") with
  | none =>
    cases h2 : envLookup environ ("S3_SECRET_KEY") with
    | none => exact h
    | some s =>
      by_cases hs : s = ("")
      · simpa [hs] using h
      · simp only [hs, if_false]
        exact envLookup_envSetdefault_of_some _ _ h
  | some a =>
    by_cases ha : a = ("")
    · cases h2 : envLookup environ ("S3_SECRET_KEY") with
      | none => simpa [ha] using h
      | some s =>
        by_cases hs : s = ("")
        · simpa [ha, hs] using h
        · simp only [ha, hs, if_true, if_false]
          exact envLookup_envSetdefault_of_some _ _ h
    · cases h2 : envLookup environ ("S3_SECRET_KEY") with
      | none =>
        simp only [ha, if_false]
        exact envLookup_envSetdefault_of_some _ _ h
      | some s =>
        by_cases hs : s = ("")
        · simp only [ha, hs, if_false, if_true]
          exact envLookup_envSetdefault_of_some _ _ h
        · simp only [ha, hs, if_false]
          exact envLookup_envSetdefault_of_some _ _
            (envLookup_envSetdefault_of_some _ _ h)

theorem augment_common_env_of_ne (environ : Env) (cmd_args : List String)
    (env_vars : Env) {k : String} (h1 : k ≠ ("AWS_ACCESS_KEY_ID"))
    (h2 : k ≠ ("AWS_SECRET_ACCESS_KEY")) :
    envLookup (augment_common environ cmd_args env_vars).2 k =
      envLookup env_vars k := by
  unfold augment_common
  cases ha : envLookup environ ("S3_ACCESS_KEY") with
  | none =>
    cases hs : envLookup environ ("S3_SECRET_KEY") with
    | none => rfl
    | some s =>
      by_cases hs0 : s = ("")
      · simp [hs0]
      · simp only [hs0, if_false]
        exact envLookup_envSetdefault_of_ne _ (Ne.symm h2)
  | some a =>
    by_cases ha0 : a = ("")
    · cases hs : envLookup environ ("S3_SECRET_KEY") with
      | none => simp [ha0]
      | some s =>
        by_cases hs0 : s = ("")
        · simp [ha0, hs0]
        · simp only [ha0, hs0, if_true, if_false]
          exact envLookup_envSetdefault_of_ne _ (Ne.symm h2)
    · cases hs : envLookup environ ("S3_SECRET_KEY") with
      | none =>
        simp only [ha0, if_false]
        exact envLookup_envSetdefault_of_ne _ (Ne.symm h1)
      | some s =>
        by_cases hs0 : s = ("")
        · simp only [ha0, hs0, if_false, if_true]
          exact envLookup_envSetdefault_of_ne _ (Ne.symm h1)
        · simp only [ha0, hs0, if_false]
          rw [envLookup_envSetdefault_of_ne _ (Ne.symm h2)]
          exact envLookup_envSetdefault_of_ne _ (Ne.symm h1)

/-- Every client's wrapper leaves the subprocess environment exactly as
`augment_common` produced it. -/
theorem client_invocation_env (environ : Env) (client_name : Option String)
    (cli_args : List String) (env_vars : Env) {cmd : List String} {ev : Env}
    (h : client_invocation environ client_name cli_args env_vars = some (cmd, ev)) :
    ev = (augment_common environ cli_args env_vars).2 := by
  unfold client_invocation at h
  split at h
  · injection h with h
    cases h
    rfl
  · split at h
    · injection h with h
      cases h
      rfl
    · split at h
      · injection h with h
        cases h
        unfold augment_aws_arguments
        cases endpoint_url_setting environ with
        | none => rfl
        | some u =>
          by_cases hmem : ("--endpoint-url") ∈ (augment_common environ cli_args env_vars).1
          · simp [hmem]
          · simp [hmem]
      · exact absurd h (by simp)

/-! ### Lemmas about the option scanner -/

theorem leadsChars_trans {p q s : List Char} (h1 : leadsChars p q = true)
    (h2 : leadsChars q s = true) : leadsChars p s = true := by
  induction p generalizing q s with
  | nil => simp [leadsChars]
  | cons a as ih =>
    cases q with
    | nil => simp [leadsChars] at h1
    | cons b bs =>
      cases s with
      | nil => simp [leadsChars] at h2
      | cons c cs =>
        simp only [leadsChars, Bool.and_eq_true, beq_iff_eq] at h1 h2 ⊢
        exact ⟨h1.1.trans h2.1, ih h1.2 h2.2⟩

theorem strLeads_trans {p q s : String} (h1 : strLeads p q = true)
    (h2 : strLeads q s = true) : strLeads p s = true :=
  leadsChars_trans h1 h2

/-- A token without a leading dash is taken as a positional argument and
passed through by the scanner. -/
theorem parse_args_scan_plain (args : List String) (opts : Opts)
    (acc : List String) (h : ∀ a ∈ args, strLeads ("-") a = false) :
    parse_args_scan args opts acc = Except.ok (opts, acc.reverse ++ args) := by
  induction args generalizing acc with
  | nil => simp [parse_args_scan]
  | cons a rest ih =>
    have ha : strLeads ("-") a = false := h a (List.mem_cons_self a rest)
    have hrest : ∀ b ∈ rest, strLeads ("-") b = false :=
      fun b hb => h b (List.mem_cons_of_mem a hb)
    have hne1 : a ≠ ("--") := by
      intro he
      rw [he] at ha
      exact absurd ha (by decide)
    have hne2 : a ≠ ("--client") := by
      intro he
      rw [he] at ha
      exact absurd ha (by decide)
    have hne3 : strLeads ("--client=") a = false := by
      cases hc : strLeads ("--client=") a with
      | false => rfl
      | true =>
        exact absurd (@strLeads_trans ("-") ("--client=") a (by decide) hc)
          (by simp [ha])
    have hne4 : a ≠ ("--role-arn") := by
      intro he
      rw [he] at ha
      exact absurd ha (by decide)
    have hne5 : strLeads ("--role-arn=") a = false := by
      cases hc : strLeads ("--role-arn=") a with
      | false => rfl
      | true =>
        exact absurd (@strLeads_trans ("-") ("--role-arn=") a (by decide) hc)
          (by simp [ha])
    have hne6 : strLeads ("--") a = false := by
      cases hc : strLeads ("--") a with
      | false => rfl
      | true =>
        exact absurd (@strLeads_trans ("-") ("--") a (by decide) hc)
          (by simp [ha])
    rw [parse_args_scan.eq_def]
    simp only [hne1, hne2, hne3, hne4, hne5, hne6, ha, if_false,
      Bool.false_eq_true, false_and, ite_false]
    rw [ih (a :: acc) hrest]
    simp

/-- Any environment a spawn attempt of `execute_client` carries is exactly
the one `augment_common` produced. -/
theorem execute_client_spawn_env (exec : String → Option Nat) (environ : Env)
    (client_name : Option String) (cli_args : List String) (env_vars : Env)
    {cmd : List String} {ev : Env}
    (h : (cmd, ev) ∈ (execute_client exec environ client_name cli_args env_vars).2) :
    ev = (augment_common environ cli_args env_vars).2 := by
  unfold execute_client at h
  cases hinv : client_invocation environ client_name cli_args env_vars with
  | none =>
    rw [hinv] at h
    simp at h
  | some p =>
    obtain ⟨c2, e2⟩ := p
    rw [hinv] at h
    have h2 : cmd = c2 ∧ ev = e2 := by
      cases hrun : subprocess_run_check exec c2 with
      | ok n =>
        simpa [hrun, Prod.mk.injEq] using h
      | error e =>
        simpa [hrun, Prod.mk.injEq] using h
    rw [h2.2]
    exact client_invocation_env _ _ _ _ hinv

/-! ### Claims -/

/-- C2 (code evaluated at the failing input): with no `--client` flag the
parsed options carry the default client name `'s5cmd'`, and
`determine_client` then returns `'s5cmd'` even under a PATH oracle on
which none of the three candidate binaries is executable — while the
preference-list search itself returns `None` there, as the claim (and the
function's own docstring) describe. -/
theorem c2_default_client_shadows_path_search :
    parse_command_line [] [] =
      Except.ok ({ client_name := ("s5cmd"), role_arn := none }, [], []) ∧
    determine_client (fun _ => none)
      { client_name := ("s5cmd"), role_arn := none } = some ("s5cmd") ∧
    determine_first_executable_command (fun _ => none)
      ([("s5cmd"), ("s4cmd"), ("aws")]) = none := by
  exact ⟨rfl, rfl, rfl⟩

/-- C9: for any client name other than the three known ones (including
Python `None`), `execute_client` returns exit code 1 and attempts no
subprocess spawn. -/
theorem c9_unknown_client_exits_one (exec : String → Option Nat)
    (environ : Env) (client_name : Option String) (cli_args : List String)
    (env_vars : Env) (h1 : client_name ≠ some ("s4cmd"))
    (h2 : client_name ≠ some ("s5cmd")) (h3 : client_name ≠ some ("aws")) :
    execute_client exec environ client_name cli_args env_vars = (1, []) := by
  unfold execute_client client_invocation
  simp [h1, h2, h3]

/-- C9 witness: a concrete unknown client name. -/
theorem c9_unknown_client_exits_one_witness :
    execute_client (fun _ => some 0) [] (some ("rclone")) [] [] = (1, []) :=
  c9_unknown_client_exits_one (fun _ => some 0) [] (some ("rclone")) [] []
    (by decide) (by decide) (by decide)

/-- C1 counterexample: under an exit-code oracle where the `s5cmd` child
exits with code 2, the program exits with code 1, not 2 — `check=True`
turns every nonzero child exit into a caught `CalledProcessError`, so the
child's specific nonzero code is not propagated. -/
theorem c1_nonzero_child_code_not_propagated :
    mainRun (fun _ => none) (fun c => if c = ("s5cmd") then some 2 else none)
      (fun _ => (⟨(""), (""), ("")⟩ : Credentials)) [] [] =
      Except.ok (1, [([("s5cmd")], [])]) ∧ (1 : Nat) ≠ 2 :=
  ⟨rfl, by decide⟩

/-- C1 (amended): the program's exit code is 0 when the delegated child
exits 0, and 1 — nonzero, but not necessarily the child's own code — both
when the child exits nonzero and when the chosen binary is missing from
PATH. -/
theorem c1_exit_code_forwarding (which : String → Option String)
    (exec : String → Option Nat) (sts : String → Credentials) (environ : Env)
    (cli_args : List String) (opts : Opts) (rest : List String) (env0 : Env)
    (cmd : List String) (ev : Env) (prog : String)
    (hp : parse_command_line cli_args environ = Except.ok (opts, rest, env0))
    (hi : client_invocation environ (determine_client which opts) rest
      (apply_role_assumption sts opts env0) = some (cmd, ev))
    (hh : cmd.head? = some prog) :
    (exec prog = some 0 →
      mainRun which exec sts environ cli_args = Except.ok (0, [(cmd, ev)])) ∧
    (∀ n, exec prog = some n → n ≠ 0 →
      mainRun which exec sts environ cli_args = Except.ok (1, [(cmd, ev)])) ∧
    (exec prog = none →
      mainRun which exec sts environ cli_args = Except.ok (1, [(cmd, ev)])) := by
  cases cmd with
  | nil => simp [List.head?] at hh
  | cons p cs =>
    simp only [List.head?, Option.some.injEq] at hh
    subst hh
    have hmain : mainRun which exec sts environ cli_args =
        Except.ok (execute_client exec environ (determine_client which opts)
          rest (apply_role_assumption sts opts env0)) := by
      unfold mainRun
      rw [hp]
    refine ⟨?_, ?_, ?_⟩
    · intro h0
      rw [hmain]
      unfold execute_client
      rw [hi]
      simp [subprocess_run_check, h0]
    · intro n hn hn0
      rw [hmain]
      unfold execute_client
      rw [hi]
      simp [subprocess_run_check, hn, hn0]
    · intro h0
      rw [hmain]
      unfold execute_client
      rw [hi]
      simp [subprocess_run_check, h0]

/-- C1 witness: with everything defaulted and an `s5cmd` child that exits
0, the program exits 0. -/
theorem c1_exit_code_forwarding_witness :
    mainRun (fun _ => none) (fun c => if c = ("s5cmd") then some 0 else none)
      (fun _ => (⟨(""), (""), ("")⟩ : Credentials)) [] [] =
      Except.ok (0, [([("s5cmd")], [])]) :=
  (c1_exit_code_forwarding (fun _ => none)
    (fun c => if c = ("s5cmd") then some 0 else none)
    (fun _ => (⟨(""), (""), ("")⟩ : Credentials)) [] []
    (⟨("s5cmd"), none⟩ : Opts) [] [] ([("s5cmd")]) []
    ("s5cmd") rfl rfl rfl).1 rfl

/-- Consuming `--client v` updates only the client name. -/
theorem parse_args_scan_client (o : Opts) (acc : List String) (v : String)
    (rest : List String) :
    parse_args_scan (("--client") :: v :: rest) o acc =
      parse_args_scan rest { o with client_name := v } acc := by
  rw [parse_args_scan.eq_def]
  simp

/-- Consuming `--role-arn v` updates only the role ARN. -/
theorem parse_args_scan_role_arn (o : Opts) (acc : List String) (v : String)
    (rest : List String) :
    parse_args_scan (("--role-arn") :: v :: rest) o acc =
      parse_args_scan rest { o with role_arn := some v } acc := by
  rw [parse_args_scan.eq_def]
  simp [strLeads, leadsChars]

/-- C4: the parser defaults `--client` to `'s5cmd'` and `--role-arn` to
`None`; positional arguments pass through intact (also when both options
are consumed in front of them); and any long option other than the two
registered ones is rejected. -/
theorem c4_parser_two_options (env_vars : Env) (c r x : String)
    (args : List String) :
    (parse_command_line [] env_vars =
      Except.ok ({ client_name := ("s5cmd"), role_arn := none }, [], env_vars)) ∧
    ((∀ a ∈ args, strLeads ("-") a = false) →
      parse_command_line args env_vars =
        Except.ok ({ client_name := ("s5cmd"), role_arn := none }, args, env_vars)) ∧
    ((∀ a ∈ args, strLeads ("-") a = false) →
      parse_command_line (("--client") :: c :: ("--role-arn") :: r :: args)
          env_vars =
        Except.ok ({ client_name := c, role_arn := some r }, args, env_vars)) ∧
    (strLeads ("--") x = true → x ≠ ("--") → x ≠ ("--client") →
      strLeads ("--client=") x = false → x ≠ ("--role-arn") →
      strLeads ("--role-arn=") x = false →
      parse_command_line (x :: args) env_vars =
        Except.error ("no such option")) := by
  refine ⟨rfl, ?_, ?_, ?_⟩
  · intro h
    unfold parse_command_line
    rw [parse_args_scan_plain args _ [] h]
    simp
  · intro h
    unfold parse_command_line
    rw [parse_args_scan_client, parse_args_scan_role_arn,
      parse_args_scan_plain args _ [] h]
    simp
  · intro hx hne1 hne2 hne3 hne4 hne5
    unfold parse_command_line
    rw [parse_args_scan.eq_def]
    simp [hne1, hne2, hne3, hne4, hne5, hx]

/-- C4 witness: defaults, a pass-through positional, both options
consumed, and a rejected unknown option, all at concrete inputs. -/
theorem c4_parser_two_options_witness :
    (parse_command_line [] [] =
      Except.ok ({ client_name := ("s5cmd"), role_arn := none }, [], [])) ∧
    (parse_command_line ([("--client"), ("aws"), ("--role-arn"), ("arn:a"),
        ("up"), ("b1")]) [] =
      Except.ok ({ client_name := ("aws"), role_arn := some ("arn:a") },
        [("up"), ("b1")], [])) ∧
    (parse_command_line ([("--verbose")]) [] =
      Except.error ("no such option")) :=
  ⟨(c4_parser_two_options [] ("aws") ("arn:a") ("--verbose")
      ([("up"), ("b1")])).1,
    (c4_parser_two_options [] ("aws") ("arn:a") ("--verbose")
      ([("up"), ("b1")])).2.2.1 (by decide),
    (c4_parser_two_options [] ("aws") ("arn:a") ("--verbose") []).2.2.2
      (by decide) (by decide) (by decide) (by decide) (by decide) (by decide)⟩

/-- The credential `setdefault` behaviour of `augment_common`, stated on
the environment it returns. -/
theorem augment_common_cred_spec (environ : Env) (args : List String)
    (env_vars : Env) :
    (∀ a, envLookup environ ("S3_ACCESS_KEY") = some a → a ≠ ("") →
      envLookup env_vars ("AWS_ACCESS_KEY_ID") = none →
      envLookup (augment_common environ args env_vars).2
        ("AWS_ACCESS_KEY_ID") = some a) ∧
    (∀ v, envLookup env_vars ("AWS_ACCESS_KEY_ID") = some v →
      envLookup (augment_common environ args env_vars).2
        ("AWS_ACCESS_KEY_ID") = some v) ∧
    (∀ s, envLookup environ ("S3_SECRET_KEY") = some s → s ≠ ("") →
      envLookup env_vars ("AWS_SECRET_ACCESS_KEY") = none →
      envLookup (augment_common environ args env_vars).2
        ("AWS_SECRET_ACCESS_KEY") = some s) ∧
    (∀ v, envLookup env_vars ("AWS_SECRET_ACCESS_KEY") = some v →
      envLookup (augment_common environ args env_vars).2
        ("AWS_SECRET_ACCESS_KEY") = some v) := by
  refine ⟨?_, ?_, ?_, ?_⟩
  · intro a ha ha0 habs
    unfold augment_common
    simp only [ha]
    rw [if_neg ha0]
    have h1 : envLookup (envSetdefault env_vars ("AWS_ACCESS_KEY_ID") a)
        ("AWS_ACCESS_KEY_ID") = some a :=
      envLookup_envSetdefault_self_of_none a habs
    cases hs : envLookup environ ("S3_SECRET_KEY") with
    | none => exact h1
    | some s =>
      by_cases hs0 : s = ("")
      · simpa [hs0] using h1
      · simp only [hs0, if_false]
        exact envLookup_envSetdefault_of_some _ _ h1
  · intro v hv
    exact augment_common_preserves_some environ args hv
  · intro s hs hs0 habs
    unfold augment_common
    simp only [hs]
    rw [if_neg hs0]
    have habs2 : envLookup
        (match envLookup environ ("S3_ACCESS_KEY") with
          | some a => if a = ("") then env_vars
              else envSetdefault env_vars ("AWS_ACCESS_KEY_ID") a
          | none => env_vars) ("AWS_SECRET_ACCESS_KEY") = none := by
      cases ha : envLookup environ ("S3_ACCESS_KEY") with
      | none => exact habs
      | some a =>
        by_cases ha0 : a = ("")
        · simpa [ha0] using habs
        · simp only [ha0, if_false]
          rw [envLookup_envSetdefault_of_ne _ (by decide)]
          exact habs
    exact envLookup_envSetdefault_self_of_none s habs2
  · intro v hv
    exact augment_common_preserves_some environ args hv

/-- C5: for every selectable client, `S3_ACCESS_KEY` is copied into
`AWS_ACCESS_KEY_ID` of the subprocess environment only when that key is
absent, existing values are never overwritten, and the same holds for
`S3_SECRET_KEY` / `AWS_SECRET_ACCESS_KEY`. -/
theorem c5_credential_setdefault (environ : Env) (args : List String)
    (env_vars : Env) (cn : String) (cmd : List String) (ev : Env)
    (_hcn : cn ∈ [("s4cmd"), ("s5cmd"), ("aws")])
    (hinv : client_invocation environ (some cn) args env_vars = some (cmd, ev)) :
    (∀ a, envLookup environ ("S3_ACCESS_KEY") = some a → a ≠ ("") →
      envLookup env_vars ("AWS_ACCESS_KEY_ID") = none →
      envLookup ev ("AWS_ACCESS_KEY_ID") = some a) ∧
    (∀ v, envLookup env_vars ("AWS_ACCESS_KEY_ID") = some v →
      envLookup ev ("AWS_ACCESS_KEY_ID") = some v) ∧
    (∀ s, envLookup environ ("S3_SECRET_KEY") = some s → s ≠ ("") →
      envLookup env_vars ("AWS_SECRET_ACCESS_KEY") = none →
      envLookup ev ("AWS_SECRET_ACCESS_KEY") = some s) ∧
    (∀ v, envLookup env_vars ("AWS_SECRET_ACCESS_KEY") = some v →
      envLookup ev ("AWS_SECRET_ACCESS_KEY") = some v) := by
  have hev := client_invocation_env environ (some cn) args env_vars hinv
  rw [hev]
  exact augment_common_cred_spec environ args env_vars

/-- C5 witness: with `S3_ACCESS_KEY` / `S3_SECRET_KEY` in the process
environment and an empty subprocess environment, the `s5cmd` invocation
carries both AWS credential entries. -/
theorem c5_credential_setdefault_witness :
    envLookup ([(("AWS_ACCESS_KEY_ID"), ("AKV")),
        (("AWS_SECRET_ACCESS_KEY"), ("SKV"))]) ("AWS_ACCESS_KEY_ID") =
      some ("AKV") ∧
    envLookup ([(("AWS_ACCESS_KEY_ID"), ("AKV")),
        (("AWS_SECRET_ACCESS_KEY"), ("SKV"))]) ("AWS_SECRET_ACCESS_KEY") =
      some ("SKV") := by
  have h := c5_credential_setdefault
    ([(("S3_ACCESS_KEY"), ("AKV")), (("S3_SECRET_KEY"), ("SKV"))]) [] []
    ("s5cmd") ([("s5cmd")])
    ([(("AWS_ACCESS_KEY_ID"), ("AKV")), (("AWS_SECRET_ACCESS_KEY"), ("SKV"))])
    (by decide) rfl
  exact ⟨h.1 ("AKV") rfl (by decide) rfl, h.2.2.1 ("SKV") rfl (by decide) rfl⟩

/-- C6: for the `aws` client, the `['--endpoint-url', url]` pair is
appended exactly when an endpoint URL is configured and the flag is not
already among the arguments; `AWS_ENDPOINT_URL_S3` takes precedence over
`S3_ENDPOINT_URL`. -/
theorem c6_aws_endpoint_argument (environ : Env) (args : List String)
    (env_vars : Env) (u : String) :
    (endpoint_url_setting environ = some u → ("--endpoint-url") ∉ args →
      (augment_aws_arguments environ args env_vars).1 =
        args ++ [("--endpoint-url"), u]) ∧
    (("--endpoint-url") ∈ args →
      (augment_aws_arguments environ args env_vars).1 = args) ∧
    (endpoint_url_setting environ = none →
      (augment_aws_arguments environ args env_vars).1 = args) ∧
    (u ≠ ("") → envLookup environ ("AWS_ENDPOINT_URL_S3") = some u →
      endpoint_url_setting environ = some u) ∧
    (envLookup environ ("AWS_ENDPOINT_URL_S3") = none →
      endpoint_url_setting environ =
        envLookup environ ("S3_ENDPOINT_URL")) := by
  refine ⟨?_, ?_, ?_, ?_, ?_⟩
  · intro he hmem
    unfold augment_aws_arguments
    simp only [he, augment_common_fst, hmem, if_false, ite_false]
  · intro hmem
    unfold augment_aws_arguments
    cases he : endpoint_url_setting environ with
    | none => exact augment_common_fst environ args env_vars
    | some u2 => simp [augment_common_fst, hmem]
  · intro he
    unfold augment_aws_arguments
    simp only [he]
    exact augment_common_fst environ args env_vars
  · intro hu he
    simp [endpoint_url_setting, pyOr, pyTruthy, he, hu]
  · intro he
    simp [endpoint_url_setting, pyOr, pyTruthy, he]

/-- C6 witness: a configured endpoint is appended to an argument list that
does not yet carry the flag. -/
theorem c6_aws_endpoint_argument_witness :
    (augment_aws_arguments ([(("AWS_ENDPOINT_URL_S3"), ("EP"))]) ([("ls")])
      []).1 = [("ls"), ("--endpoint-url"), ("EP")] :=
  (c6_aws_endpoint_argument ([(("AWS_ENDPOINT_URL_S3"), ("EP"))]) ([("ls")])
    [] ("EP")).1 rfl (by decide)

/-- C7: for the `s4cmd` client, `['--endpoint', url]` is appended whenever
an endpoint URL is configured — even when `--endpoint` is already among
the arguments — while `['--region', region]` is appended only when
`--region` is absent from the arguments and `S3_REGION` is set. -/
theorem c7_s4cmd_endpoint_region (environ : Env) (args : List String)
    (env_vars : Env) (u r : String) :
    (endpoint_url_setting environ = some u → ("--endpoint") ∈ args →
      ("--region") ∈ args →
      (augment_s4cmd_arguments environ args env_vars).1 =
        args ++ [("--endpoint"), u]) ∧
    (endpoint_url_setting environ = some u → u ≠ ("--region") →
      ("--region") ∉ args → envLookup environ ("S3_REGION") = some r →
      (augment_s4cmd_arguments environ args env_vars).1 =
        args ++ [("--endpoint"), u, ("--region"), r]) ∧
    (endpoint_url_setting environ = none → ("--region") ∉ args →
      envLookup environ ("S3_REGION") = some r →
      (augment_s4cmd_arguments environ args env_vars).1 =
        args ++ [("--region"), r]) ∧
    (endpoint_url_setting environ = none → ("--region") ∈ args →
      (augment_s4cmd_arguments environ args env_vars).1 = args) := by
  refine ⟨?_, ?_, ?_, ?_⟩
  · intro he hmem1 hmem2
    unfold augment_s4cmd_arguments
    simp only [he, augment_common_fst]
    have hm : ("--region") ∈ args ++ [("--endpoint"), u] :=
      List.mem_append_left _ hmem2
    simp [hm]
  · intro he hu hmem hr
    unfold augment_s4cmd_arguments
    simp only [he, augment_common_fst]
    have hm : ("--region") ∉ args ++ [("--endpoint"), u] := by
      simp [List.mem_append, hmem]
      exact fun hq => hu hq.symm
    simp [hm, hr]
  · intro he hmem hr
    unfold augment_s4cmd_arguments
    simp only [he, augment_common_fst]
    simp [hmem, hr]
  · intro he hmem
    unfold augment_s4cmd_arguments
    simp only [he, augment_common_fst]
    simp [hmem]

/-- C7 witness: endpoint and region both injected for `s4cmd` at a
concrete environment. -/
theorem c7_s4cmd_endpoint_region_witness :
    (augment_s4cmd_arguments ([(("S3_ENDPOINT_URL"), ("EP")),
      (("S3_REGION"), ("R1"))]) ([("cp")]) []).1 =
      [("cp"), ("--endpoint"), ("EP"), ("--region"), ("R1")] :=
  (c7_s4cmd_endpoint_region ([(("S3_ENDPOINT_URL"), ("EP")),
    (("S3_REGION"), ("R1"))]) ([("cp")]) [] ("EP") ("R1")).2.1 rfl
    (by decide) (by decide) rfl

/-- C8: a truthy `--role-arn` routes the environment through
`assume_role_using_arn`, which overwrites the three AWS credential
entries with the temporary credentials of the STS response, whatever the
previous values were; without `--role-arn` the environment is unchanged
by this step. -/
theorem c8_role_assumption (sts : String → Credentials) (opts : Opts)
    (env_vars : Env) (r : String) (creds : Credentials) :
    (opts.role_arn = some r → r ≠ ("") →
      apply_role_assumption sts opts env_vars =
        assume_role_using_arn (sts r) env_vars) ∧
    (envLookup (assume_role_using_arn creds env_vars) ("AWS_ACCESS_KEY_ID") =
      some creds.accessKeyId) ∧
    (envLookup (assume_role_using_arn creds env_vars)
      ("AWS_SECRET_ACCESS_KEY") = some creds.secretAccessKey) ∧
    (envLookup (assume_role_using_arn creds env_vars) ("AWS_SESSION_TOKEN") =
      some creds.sessionToken) ∧
    (opts.role_arn = none → apply_role_assumption sts opts env_vars =
      env_vars) := by
  refine ⟨?_, ?_, ?_, ?_, ?_⟩
  · intro hr hr0
    unfold apply_role_assumption
    rw [hr]
    simp [hr0]
  · unfold assume_role_using_arn
    rw [envLookup_envSet_of_ne _ _ (by decide),
      envLookup_envSet_of_ne _ _ (by decide), envLookup_envSet_self]
  · unfold assume_role_using_arn
    rw [envLookup_envSet_of_ne _ _ (by decide), envLookup_envSet_self]
  · unfold assume_role_using_arn
    rw [envLookup_envSet_self]
  · intro hr
    unfold apply_role_assumption
    rw [hr]

/-- C8 witness: a supplied role ARN replaces a pre-existing access key in
the environment with the STS credentials. -/
theorem c8_role_assumption_witness :
    apply_role_assumption (fun _ => (⟨("NEWAK"), ("NEWSK"), ("NEWTOK")⟩ :
        Credentials)) (⟨("s5cmd"), some ("arn:aws:iam::1:role/x")⟩ : Opts)
      ([(("AWS_ACCESS_KEY_ID"), ("OLD"))]) =
      assume_role_using_arn (⟨("NEWAK"), ("NEWSK"), ("NEWTOK")⟩ : Credentials)
        ([(("AWS_ACCESS_KEY_ID"), ("OLD"))]) ∧
    envLookup (assume_role_using_arn (⟨("NEWAK"), ("NEWSK"), ("NEWTOK")⟩ :
        Credentials) ([(("AWS_ACCESS_KEY_ID"), ("OLD"))]))
      ("AWS_ACCESS_KEY_ID") = some ("NEWAK") :=
  ⟨(c8_role_assumption (fun _ => (⟨("NEWAK"), ("NEWSK"), ("NEWTOK")⟩ :
      Credentials)) (⟨("s5cmd"), some ("arn:aws:iam::1:role/x")⟩ : Opts)
      ([(("AWS_ACCESS_KEY_ID"), ("OLD"))]) ("arn:aws:iam::1:role/x")
      (⟨("NEWAK"), ("NEWSK"), ("NEWTOK")⟩ : Credentials)).1 rfl (by decide),
    (c8_role_assumption (fun _ => (⟨("NEWAK"), ("NEWSK"), ("NEWTOK")⟩ :
      Credentials)) (⟨("s5cmd"), some ("arn:aws:iam::1:role/x")⟩ : Opts)
      ([(("AWS_ACCESS_KEY_ID"), ("OLD"))]) ("arn:aws:iam::1:role/x")
      (⟨("NEWAK"), ("NEWSK"), ("NEWTOK")⟩ : Credentials)).2.1⟩

/-- C3: whichever of the three clients is invoked on a subprocess
environment copied from the process environment, a configured endpoint
URL reaches the tool either inside the command line or as an environment
entry (under its original variable name, which the augmentation never
removes). -/
theorem c3_endpoint_forwarded (environ : Env) (args : List String)
    (u cn : String) (cmd : List String) (ev : Env)
    (_hcn : cn ∈ [("s5cmd"), ("s4cmd"), ("aws")])
    (he : endpoint_url_setting environ = some u)
    (hinv : client_invocation environ (some cn) args environ = some (cmd, ev)) :
    u ∈ cmd ∨ envLookup ev ("AWS_ENDPOINT_URL_S3") = some u ∨
      envLookup ev ("S3_ENDPOINT_URL") = some u := by
  have hev := client_invocation_env environ (some cn) args environ hinv
  rw [hev]
  unfold endpoint_url_setting pyOr at he
  by_cases ht : pyTruthy (envLookup environ ("AWS_ENDPOINT_URL_S3")) = true
  · rw [if_pos ht] at he
    right
    left
    rw [augment_common_env_of_ne environ args environ (by decide) (by decide)]
    exact he
  · rw [if_neg ht] at he
    right
    right
    rw [augment_common_env_of_ne environ args environ (by decide) (by decide)]
    exact he

/-- C3 witness: an endpoint configured only through `S3_ENDPOINT_URL` is
still present in the environment handed to the `s5cmd` child. -/
theorem c3_endpoint_forwarded_witness :
    ("EP") ∈ [("s5cmd")] ∨
    envLookup ([(("S3_ENDPOINT_URL"), ("EP"))]) ("AWS_ENDPOINT_URL_S3") =
      some ("EP") ∨
    envLookup ([(("S3_ENDPOINT_URL"), ("EP"))]) ("S3_ENDPOINT_URL") =
      some ("EP") :=
  c3_endpoint_forwarded ([(("S3_ENDPOINT_URL"), ("EP"))]) [] ("EP")
    ("s5cmd") ([("s5cmd")]) ([(("S3_ENDPOINT_URL"), ("EP"))]) (by decide)
    rfl rfl

/-- C10: when a truthy role ARN was parsed, every subprocess the program
attempts to spawn sees the STS temporary credentials under
`AWS_ACCESS_KEY_ID` / `AWS_SECRET_ACCESS_KEY` — the later per-client
augmentation only fills these keys when absent, so it cannot displace
them. -/
theorem c10_role_credentials_win (which : String → Option String)
    (exec : String → Option Nat) (sts : String → Credentials) (environ : Env)
    (cli_args : List String) (opts : Opts) (rest : List String) (env0 : Env)
    (r : String) (code : Nat) (spawned : List (List String × Env))
    (cmd : List String) (ev : Env)
    (hp : parse_command_line cli_args environ = Except.ok (opts, rest, env0))
    (hr : opts.role_arn = some r) (hr0 : r ≠ (""))
    (hm : mainRun which exec sts environ cli_args = Except.ok (code, spawned))
    (hmem : (cmd, ev) ∈ spawned) :
    envLookup ev ("AWS_ACCESS_KEY_ID") = some ((sts r).accessKeyId) ∧
    envLookup ev ("AWS_SECRET_ACCESS_KEY") =
      some ((sts r).secretAccessKey) := by
  have henvA : apply_role_assumption sts opts env0 =
      assume_role_using_arn (sts r) env0 := by
    unfold apply_role_assumption
    rw [hr]
    simp [hr0]
  have hAK : envLookup (apply_role_assumption sts opts env0)
      ("AWS_ACCESS_KEY_ID") = some ((sts r).accessKeyId) := by
    rw [henvA]
    unfold assume_role_using_arn
    rw [envLookup_envSet_of_ne _ _ (by decide),
      envLookup_envSet_of_ne _ _ (by decide), envLookup_envSet_self]
  have hSK : envLookup (apply_role_assumption sts opts env0)
      ("AWS_SECRET_ACCESS_KEY") = some ((sts r).secretAccessKey) := by
    rw [henvA]
    unfold assume_role_using_arn
    rw [envLookup_envSet_of_ne _ _ (by decide), envLookup_envSet_self]
  have hm2 : (Except.ok (execute_client exec environ
      (determine_client which opts) rest
      (apply_role_assumption sts opts env0)) :
        Except String (Nat × List (List String × Env))) =
      Except.ok (code, spawned) := by
    rw [← hm]
    unfold mainRun
    rw [hp]
  have hm3 := Except.ok.inj hm2
  have hspawn : (cmd, ev) ∈ (execute_client exec environ
      (determine_client which opts) rest
      (apply_role_assumption sts opts env0)).2 := by
    rw [hm3]
    exact hmem
  have hev := execute_client_spawn_env exec environ (determine_client which opts)
    rest (apply_role_assumption sts opts env0) hspawn
  rw [hev]
  exact ⟨augment_common_preserves_some environ rest hAK,
    augment_common_preserves_some environ rest hSK⟩

/-- C10 witness: with `--role-arn` supplied, the spawned `s5cmd` child
sees the STS access key even though `S3_ACCESS_KEY` is also set. -/
theorem c10_role_credentials_win_witness :
    envLookup ([(("S3_ACCESS_KEY"), ("S3K")), (("AWS_ACCESS_KEY_ID"), ("AK")),
        (("AWS_SECRET_ACCESS_KEY"), ("SK")), (("AWS_SESSION_TOKEN"), ("TOK"))])
      ("AWS_ACCESS_KEY_ID") = some ("AK") ∧
    envLookup ([(("S3_ACCESS_KEY"), ("S3K")), (("AWS_ACCESS_KEY_ID"), ("AK")),
        (("AWS_SECRET_ACCESS_KEY"), ("SK")), (("AWS_SESSION_TOKEN"), ("TOK"))])
      ("AWS_SECRET_ACCESS_KEY") = some ("SK") :=
  c10_role_credentials_win (fun _ => none) (fun _ => some 0)
    (fun _ => (⟨("AK"), ("SK"), ("TOK")⟩ : Credentials))
    ([(("S3_ACCESS_KEY"), ("S3K"))]) ([("--role-arn"), ("arn:x")])
    (⟨("s5cmd"), some ("arn:x")⟩ : Opts) [] ([(("S3_ACCESS_KEY"), ("S3K"))])
    ("arn:x") 0
    ([([("s5cmd")], [(("S3_ACCESS_KEY"), ("S3K")),
      (("AWS_ACCESS_KEY_ID"), ("AK")), (("AWS_SECRET_ACCESS_KEY"), ("SK")),
      (("AWS_SESSION_TOKEN"), ("TOK"))])])
    ([("s5cmd")])
    ([(("S3_ACCESS_KEY"), ("S3K")), (("AWS_ACCESS_KEY_ID"), ("AK")),
      (("AWS_SECRET_ACCESS_KEY"), ("SK")), (("AWS_SESSION_TOKEN"), ("TOK"))])
    rfl rfl (by decide) rfl (by simp)

end EnvoiS3
